import Mathlib

/-!
Verification of the joyautomation/synapse Sparkplug B client library.

This file gives a shallow embedding, in Lean 4, of the parts of the
source that the specification claims talk about:

* the report-by-exception publish gate `metricNeedsToPublish` and the
  scan scheduler `publishMetrics` / `setLastPublished`
  (src/stateMachines/node.ts, the variant shipped as src/unnamed/part_003);
* the `seq` and `bdSeq` accounting of the MQTT framing layer
  (src/mqtt.ts: `addSeqNumber`, `publishNodeBirth`, `getDeathPayload`,
  `createMqttClient`);
* the node and device lifecycle transitions
  (src/unnamed/part_003 and src/stateMachines/device.ts);
* the host topology mirror (src/stateMachines/host.ts, second variant:
  `createHostNode`, `createHostDevice`, `updateHostMetric`,
  `createHostMessageEvents`);
* the payload compression codec (src/compression/index.ts).

JavaScript runtime values that the code manipulates (numbers, strings,
booleans, null, undefined, protobuf Long objects) are modelled by the
inductive type `JSVal`; numbers are modelled by `Int` (the integer
fragment; NaN is modelled as `none` under `jsToNumber`).  JavaScript
objects keyed by strings are modelled by insertion-ordered association
lists with replace-or-append assignment, matching JS object update
semantics up to value equality.  A thrown TypeError is modelled by an
explicit error case where a claim depends on it.
-/

namespace Synapse

/-- Model of a JavaScript runtime value as it appears in metric fields:
a number (integer fragment), a string, a boolean, a protobuf `Long`
object, `null`, or `undefined`. -/
inductive JSVal where
  | num (n : Int)
  | str (s : String)
  | boolean (b : Bool)
  | long (n : Int)
  | null
  | undef
deriving DecidableEq, Repr

/-- JavaScript loose equality with null: `x == null` holds exactly for
`null` and `undefined`. -/
def jsIsNullish : JSVal → Bool
  | .null => true
  | .undef => true
  | _ => false

/-- JavaScript truthiness.  Note that a `Long` is an object and is
therefore always truthy, even when it wraps zero. -/
def jsTruthy : JSVal → Bool
  | .num n => n != 0
  | .str s => s != ""
  | .boolean b => b
  | .long _ => true
  | .null => false
  | .undef => false

/-- Integer fragment of the JavaScript `ToNumber` coercion
(`Number(x)` and the implicit coercion of the `-` operator):
`null` coerces to 0, `undefined` to NaN (modelled as `none`),
booleans to 0 or 1, `Long` objects to their numeric value, and the
empty string to 0; other strings parse as integers or give NaN. -/
def jsToNumber : JSVal → Option Int
  | .num n => some n
  | .long n => some n
  | .boolean b => some (if b then 1 else 0)
  | .null => some 0
  | .undef => none
  | .str s => if s = "" then some 0 else s.toInt?

/-- From src/unnamed/part_003 `isNumberType`: membership of the metric
type string in the list of numeric Sparkplug types. -/
def isNumberType (metricType : String) : Bool :=
  ["Int8", "Int16", "Int32", "Int64", "UInt8", "UInt16", "UInt32",
    "UInt64", "Float", "Double"].contains metricType

/-- Deadband configuration of a metric: `deadband?: { maxTime?: number; value: number }`
from src/types.ts. -/
structure Deadband where
  value : Int
  maxTime : Option Int := none
deriving DecidableEq, Repr

/-- The `lastPublished` record of a metric: `{ timestamp: number; value: ... }`.
The runtime value may be `null` even though the TS type says otherwise
(the RBE tests construct exactly that), so `value` is a `JSVal`. -/
structure LastPublished where
  timestamp : Int
  value : JSVal
deriving DecidableEq, Repr

/-- The fields of a `SparkplugMetric` that the publish scheduler and
the report-by-exception gate read (src/types.ts `SparkplugMetric`).
The `value` holds the current scalar; producer metrics are evaluated to
a scalar before any of the functions modelled here see them. -/
structure RbeMetric where
  name : String := ""
  type : String := ""
  value : JSVal := .undef
  timestamp : Option Int := none
  scanRate : Option Int := none
  deadband : Option Deadband := none
  lastPublished : Option LastPublished := none
deriving DecidableEq, Repr

/-- Shallow embedding of `metricNeedsToPublish` (src/unnamed/part_003,
lines 475 to 514).  `now` stands for `Date.now()`.  The result is
`none` exactly when the source would throw a TypeError: that happens
when `metric.lastPublished` is absent and control reaches
`metric.lastPublished!.timestamp`, i.e. when the first guard did not
already return `true`.

The first `if` mirrors
`!lastPublished || lastPublished.value == null || !isNumberType(type) || !deadband`
followed by the strict inequality `metric.value !== metric.lastPublished?.value`
(where an absent record makes the optional chain yield `undefined`).
The two deadband branches mirror the JavaScript truthiness guards
`metric.deadband?.value && ...` and `metric.deadband?.maxTime && ...`,
under which a configured deadband value or maxTime of 0 disables the
corresponding check. -/
def metricNeedsToPublish (now : Int) (metric : RbeMetric) : Option Bool :=
  let lpv : JSVal :=
    match metric.lastPublished with
    | some lp => lp.value
    | none => JSVal.undef
  if (metric.lastPublished.isNone || jsIsNullish lpv
        || !isNumberType metric.type || metric.deadband.isNone)
      && metric.value != lpv then
    some true
  else
    match metric.lastPublished with
    | none => none
    | some lp =>
      let timeSinceLastPublish := now - lp.timestamp
      let valueDifference : Option Int :=
        match jsToNumber metric.value, jsToNumber lp.value with
        | some a, some b => some ((a - b).natAbs : Int)
        | _, _ => none
      let deadbandValueHit : Bool :=
        match metric.deadband with
        | some db =>
          db.value != 0 &&
            (match valueDifference with
             | some d => d > db.value
             | none => false)
        | none => false
      if deadbandValueHit then some true
      else
        let maxTimeHit : Bool :=
          match metric.deadband with
          | some db =>
            match db.maxTime with
            | some t => t != 0 && timeSinceLastPublish > t
            | none => false
          | none => false
        if maxTimeHit then some true else some false

/-- Modelled from the spec: the publish gate that claim C4 describes
for a numeric metric carrying a `lastPublished` record and a deadband
configuration with value delta and maxTime T.  It returns true iff
the absolute value change exceeds delta, or the elapsed time exceeds
T, or the last published value was null.  This definition follows the
words of the claim, for comparison with `metricNeedsToPublish`. -/
def claimedRbeGate (now delta maxTime : Int) (metric : RbeMetric) : Bool :=
  match metric.lastPublished with
  | none => false
  | some lp =>
    jsIsNullish lp.value ||
      (match jsToNumber metric.value, jsToNumber lp.value with
       | some a, some b => (((a - b).natAbs : Int) > delta : Bool)
       | _, _ => false) ||
      (now - lp.timestamp > maxTime : Bool)

/-- Concrete metric on which the claimed gate and the code disagree:
Int32 metric, current value 1, deadband value 0 with maxTime 1000,
last published value 0 at the current instant. -/
def c4Metric : RbeMetric :=
  { name := "m", type := "Int32", value := .num 1,
    deadband := some { value := 0, maxTime := some 1000 },
    lastPublished := some { timestamp := 0, value := .num 0 } }

/-- C4, counterexample.  For the metric `c4Metric` with deadband value
0, the claim says the gate returns true (the value moved by 1, which
exceeds the configured deadband of 0), but `metricNeedsToPublish`
returns false: the JavaScript guard `metric.deadband?.value && ...`
treats a configured deadband value of 0 as falsy and skips the value
comparison entirely. -/
theorem C4_counterexample :
    claimedRbeGate 0 0 1000 c4Metric = true ∧
      metricNeedsToPublish 0 c4Metric = some false := by
  constructor <;> decide

/-- C4, amended.  For a numeric metric carrying a deadband
configuration with value delta and maxTime T and a lastPublished
record whose value is a number or null, the report-by-exception gate
returns true iff the last published value was null, or delta is
nonzero and the absolute value change exceeds delta, or T is nonzero
and the time since the last publish exceeds T.  (The code tests the
configured numbers for JavaScript truthiness, so a deadband value of 0
or a maxTime of 0 disables the corresponding check, and a null last
value only fires through the value-changed branch, which a numeric
current value always satisfies.) -/
theorem C4_rbe_gate (now t delta T v : Int) (lv : JSVal) (m : RbeMetric)
    (htype : isNumberType m.type = true)
    (hdb : m.deadband = some { value := delta, maxTime := some T })
    (hlp : m.lastPublished = some { timestamp := t, value := lv })
    (hv : m.value = .num v)
    (hlv : lv = .null ∨ ∃ w, lv = .num w) :
    metricNeedsToPublish now m =
      some (jsIsNullish lv
        || (delta != 0 && (((v - (jsToNumber lv).getD 0).natAbs : Int) > delta : Bool))
        || (T != 0 && (now - t > T : Bool))) := by
  rcases hlv with h | ⟨w, h⟩ <;> subst h <;>
    simp only [metricNeedsToPublish, hdb, hlp, hv, htype, jsIsNullish, jsToNumber,
      Option.isNone_some, Option.getD_some, Bool.false_or, Bool.true_or,
      Bool.not_true, Bool.or_false, Bool.or_true, Bool.false_and, Bool.true_and,
      Bool.and_false, Bool.and_true]
  · simp
  · by_cases hd : (delta != 0 && (((v - w).natAbs : Int) > delta : Bool)) = true <;>
      by_cases ht : (T != 0 && (now - t > T : Bool)) = true <;>
        simp_all
    have hA : (delta != 0 && decide (delta < |v - w|)) = false := by
      by_cases h0 : delta = 0
      · simp [h0]
      · simp [h0, decide_eq_false (not_lt.mpr (hd h0))]
    have hB : (T != 0 && decide (T < now - t)) = false := by
      by_cases h0 : T = 0
      · simp [h0]
      · have := ht h0
        simp only [h0, decide_eq_false (by omega : ¬T < now - t)]
        simp
    rw [if_neg (fun hc => absurd (hd hc.1) (not_le.mpr hc.2)),
      if_neg (fun hc => absurd (ht hc.1) (by omega)), hA, hB]
    simp

/-- Witness metric for C4: Int32 metric at value 10, deadband 5 with
maxTime 100, last published value 1 at time 0. -/
def c4WitnessMetric : RbeMetric :=
  { name := "m", type := "Int32", value := .num 10,
    deadband := some { value := 5, maxTime := some 100 },
    lastPublished := some { timestamp := 0, value := .num 1 } }

/-- Witness for C4_rbe_gate at a concrete metric. -/
theorem C4_witness :
    metricNeedsToPublish 10 c4WitnessMetric =
      some (jsIsNullish (.num 1)
        || ((5 : Int) != 0 && ((((10 : Int) - ((jsToNumber (.num 1)).getD 0)).natAbs : Int) > 5 : Bool))
        || ((100 : Int) != 0 && ((10 : Int) - 0 > 100 : Bool))) :=
  C4_rbe_gate 10 0 5 100 10 (.num 1) c4WitnessMetric (by decide) rfl rfl rfl
    (Or.inr ⟨1, rfl⟩)

/-! ## Payload codec and compression (src/compression/index.ts)

The protobuf codec (`encodePayload` / `decodePayload`) and the pako
byte-level compressors (`gzip` / `ungzip`, `deflate` / `inflate`) are
external collaborators; the embedding is parameterised over them, with
the byte type `B` abstract.  The structure of `compressPayload` and
`decompressPayload` themselves is translated from the source. -/

/-- A payload metric as the codec sees it (name, type, value). -/
structure PMetric where
  name : Option String := none
  type : Option String := none
  value : JSVal := .undef
deriving DecidableEq, Repr

/-- The payload compression options (src/compression/types.ts):
`algorithm?: "GZIP" | "DEFLATE"; compress?: boolean`.  The runtime
places no constraint on the algorithm string, so it is modelled as an
arbitrary string. -/
structure PayloadOptions where
  compress : Option Bool := none
  algorithm : Option String := none
deriving DecidableEq, Repr

/-- A Sparkplug B payload over an abstract byte type `B`: timestamp
(may arrive as a protobuf Long, hence `JSVal`), optional sequence
number, optional metric list, optional compressed body. -/
structure SpbPayload (B : Type) where
  timestamp : JSVal := .undef
  seq : Option Nat := none
  metrics : Option (List PMetric) := none
  body : Option B := none
deriving DecidableEq, Repr

/-- Conversion of a single protobuf Long value to a plain number,
as done per metric inside `convertLongs`. -/
def convertLong : JSVal → JSVal
  | .long n => .num n
  | v => v

/-- Shallow embedding of `convertLongs` (src/compression/index.ts,
lines 39 to 50): map Long metric values and a Long timestamp to plain
numbers; an absent metric list stays absent. -/
def convertLongs {B : Type} (payload : SpbPayload B) : SpbPayload B :=
  { payload with
    metrics := payload.metrics.map
      (List.map (fun m => { m with value := convertLong m.value })),
    timestamp := convertLong payload.timestamp }

/-- Shallow embedding of `hasAlgorithm`: the metric list is present
and contains a metric named exactly "algorithm". -/
def hasAlgorithm (metrics : Option (List PMetric)) : Bool :=
  match metrics with
  | none => false
  | some ms => (ms.find? (fun m => m.name == some "algorithm")).isSome

/-- ASCII uppercase conversion, modelling `String.prototype.toUpperCase`
on the algorithm tokens. -/
def strUpper (s : String) : String := ⟨s.data.map Char.toUpper⟩

/-- JavaScript optional-chained `value?.toString()`: `null` and
`undefined` short-circuit to `undefined` (`none`); every other value
stringifies. -/
def jsToStringOpt : JSVal → Option String
  | .null => none
  | .undef => none
  | .num n => some (toString n)
  | .long n => some (toString n)
  | .boolean b => some (if b then "true" else "false")
  | .str s => some s

/-- Shallow embedding of `compressPayload` (src/compression/index.ts,
lines 84 to 102).  The `cond` table is tried in order: (1) no options
or `compress !== true` returns the payload unchanged; (2) and (3) the
generated conditions compare `options.algorithm === algorithm` for the
exact keys "GZIP" and "DEFLATE" of `compressionAlgorithms`; (4) the
default branch logs an error and returns the payload unchanged.  A
matching branch replaces the payload by an object holding only the
compressed `body` and a single "algorithm" metric whose value is
`options.algorithm.toUpperCase()`. -/
def compressPayload {B : Type} (encodeP : SpbPayload B → B)
    (gzipC deflateC : B → B)
    (options : Option PayloadOptions) (payload : SpbPayload B) :
    SpbPayload B :=
  match options with
  | none => payload
  | some o =>
    if o.compress != some true then payload
    else if o.algorithm == some "GZIP" then
      { timestamp := .undef, seq := none,
        metrics := some [{ name := some "algorithm", type := some "String",
                           value := .str (strUpper (o.algorithm.getD "")) }],
        body := some (gzipC (encodeP payload)) }
    else if o.algorithm == some "DEFLATE" then
      { timestamp := .undef, seq := none,
        metrics := some [{ name := some "algorithm", type := some "String",
                           value := .str (strUpper (o.algorithm.getD "")) }],
        body := some (deflateC (encodeP payload)) }
    else payload

/-- Result of `decompressPayload`: a returned payload, the `null`
returned when the body is absent, or the thrown
"Unknown or unsupported algorithm" error. -/
inductive DecompressResult (B : Type) where
  | ok (payload : SpbPayload B)
  | nullBody
  | err
deriving DecidableEq, Repr

/-- The uppercased algorithm token of a payload, as computed by the
generated decompression conditions:
`metrics?.find(m => m.name === "algorithm")?.value?.toString().toUpperCase()`. -/
def algorithmToken {B : Type} (payload : SpbPayload B) : Option String :=
  ((payload.metrics.getD []).find? (fun m => m.name == some "algorithm")).bind
    (fun m => (jsToStringOpt m.value).map strUpper)

/-- Shallow embedding of `decompressPayload` (src/compression/index.ts,
lines 153 to 166) on decoded payload inputs.  In order: (1) a payload
without an "algorithm" metric is returned unchanged; (2) and (3) the
generated conditions compare the uppercased token against "GZIP" and
"DEFLATE" (hence case-insensitive recognition) and, when the body is
present, decompress it, decode it, and convert Longs; (4) the default
branch throws. -/
def decompressPayload {B : Type} (decodeP : B → SpbPayload B)
    (ungzipC inflateC : B → B) (payload : SpbPayload B) :
    DecompressResult B :=
  if !hasAlgorithm payload.metrics then .ok payload
  else if algorithmToken payload == some "GZIP" then
    match payload.body with
    | some b => .ok (convertLongs (decodeP (ungzipC b)))
    | none => .nullBody
  else if algorithmToken payload == some "DEFLATE" then
    match payload.body with
    | some b => .ok (convertLongs (decodeP (inflateC b)))
    | none => .nullBody
  else .err

/-- A small concrete payload used in the compression counterexamples. -/
def c8Payload : SpbPayload Unit :=
  { timestamp := .num 5,
    metrics := some [{ name := some "a", type := some "Int32", value := .num 7 }] }

/-- C8, counterexample.  Compressing with the differently-cased token
"gzip" (and compress enabled) neither recognises the algorithm nor
fails with an InvalidPayload error: `compressPayload` returns the
payload unchanged and uncompressed.  The encode direction compares the
token case-sensitively and its error branch merely logs. -/
theorem C8_counterexample :
    compressPayload (fun (_ : SpbPayload Unit) => ()) id id
      (some { compress := some true, algorithm := some "gzip" }) c8Payload
      = c8Payload := by
  decide

/-- C8, amended.  The decompress (decode) direction recognises the
algorithm token case-insensitively and fails (throws) on any token
other than GZIP and DEFLATE; the compress (encode) direction compares
the token exactly against the uppercase keys "GZIP" and "DEFLATE" and,
on any other token (including differently-cased ones), logs an error
and returns the payload unchanged instead of failing. -/
theorem C8_algorithm_tokens :
    (∀ (B : Type) (encodeP : SpbPayload B → B) (gzipC deflateC : B → B)
        (o : PayloadOptions) (payload : SpbPayload B) (a : String),
        o.compress = some true → o.algorithm = some a →
        a ≠ "GZIP" → a ≠ "DEFLATE" →
        compressPayload encodeP gzipC deflateC (some o) payload = payload) ∧
    (∀ (B : Type) (decodeP : B → SpbPayload B) (ungzipC inflateC : B → B)
        (payload : SpbPayload B) (t : String),
        hasAlgorithm payload.metrics = true →
        algorithmToken payload = some t →
        t ≠ "GZIP" → t ≠ "DEFLATE" →
        decompressPayload decodeP ungzipC inflateC payload = .err) ∧
    (∀ (B : Type) (decodeP : B → SpbPayload B) (ungzipC inflateC : B → B)
        (payload : SpbPayload B) (am : PMetric) (s : String) (b : B),
        (payload.metrics.getD []).find? (fun m => m.name == some "algorithm")
            = some am →
        am.value = .str s → strUpper s = "GZIP" → payload.body = some b →
        decompressPayload decodeP ungzipC inflateC payload
          = .ok (convertLongs (decodeP (ungzipC b)))) := by
  refine ⟨?_, ?_, ?_⟩
  · intro B encodeP gzipC deflateC o payload a hc ha h1 h2
    simp [compressPayload, hc, ha, h1, h2]
  · intro B decodeP ungzipC inflateC payload t hha htok h1 h2
    simp [decompressPayload, hha, htok, h1, h2]
  · intro B decodeP ungzipC inflateC payload am s b hfind hval hup hbody
    cases hm : payload.metrics with
    | none => rw [hm] at hfind; simp at hfind
    | some ms =>
      rw [hm] at hfind
      simp only [Option.getD_some] at hfind
      have hha : hasAlgorithm payload.metrics = true := by
        rw [hm]; simp [hasAlgorithm, hfind]
      have htok : algorithmToken payload = some "GZIP" := by
        simp [algorithmToken, hm, hfind, hval, jsToStringOpt, hup]
      simp [decompressPayload, hha, htok, hbody]

/-- Payload carrying an unrecognised algorithm token, for the C8
witness. -/
def c8WitnessBad : SpbPayload Unit :=
  { metrics := some [{ name := some "algorithm", type := some "String",
                       value := .str "LZ4" }],
    body := some () }

/-- Payload carrying a lowercase gzip token, for the C8 witness. -/
def c8WitnessLower : SpbPayload Unit :=
  { metrics := some [{ name := some "algorithm", type := some "String",
                       value := .str "gzip" }],
    body := some () }

/-- Witness for C8_algorithm_tokens at concrete payloads. -/
theorem C8_witness :
    compressPayload (fun (_ : SpbPayload Unit) => ()) id id
        (some { compress := some true, algorithm := some "LZ4" }) c8Payload
      = c8Payload ∧
    decompressPayload (fun (_ : Unit) => c8Payload) id id c8WitnessBad
      = .err ∧
    decompressPayload (fun (_ : Unit) => c8Payload) id id c8WitnessLower
      = .ok (convertLongs c8Payload) :=
  ⟨C8_algorithm_tokens.1 Unit (fun _ => ()) id id _ c8Payload "LZ4" rfl rfl
      (by decide) (by decide),
   C8_algorithm_tokens.2.1 Unit (fun _ => c8Payload) id id c8WitnessBad "LZ4"
      (by decide) (by decide) (by decide) (by decide),
   C8_algorithm_tokens.2.2 Unit (fun _ => c8Payload) id id c8WitnessLower
      { name := some "algorithm", type := some "String", value := .str "gzip" }
      "gzip" () (by decide) rfl (by decide) rfl⟩

/-- C9.  For every payload p and each of GZIP and DEFLATE, compressing
with compress enabled and then decompressing yields a payload
value-equal to p, including its metric values and timestamp, provided
the external codec and compressor invert each other on p and p carries
no protobuf-Long values (so the final `convertLongs` is the identity
on it). -/
theorem C9_compress_roundtrip {B : Type} (encodeP : SpbPayload B → B)
    (decodeP : B → SpbPayload B) (gzipC ungzipC deflateC inflateC : B → B)
    (p : SpbPayload B) (hlong : convertLongs p = p) :
    (decodeP (ungzipC (gzipC (encodeP p))) = p →
      decompressPayload decodeP ungzipC inflateC
        (compressPayload encodeP gzipC deflateC
          (some { compress := some true, algorithm := some "GZIP" }) p)
        = .ok p) ∧
    (decodeP (inflateC (deflateC (encodeP p))) = p →
      decompressPayload decodeP ungzipC inflateC
        (compressPayload encodeP gzipC deflateC
          (some { compress := some true, algorithm := some "DEFLATE" }) p)
        = .ok p) := by
  constructor <;> intro h <;>
    simp [compressPayload, decompressPayload, hasAlgorithm, algorithmToken,
      jsToStringOpt, h, hlong,
      show strUpper "GZIP" = "GZIP" from rfl,
      show strUpper "DEFLATE" = "DEFLATE" from rfl]

/-- Witness for C9_compress_roundtrip: identity codec and compressors
on a concrete Long-free payload. -/
theorem C9_witness :
    decompressPayload (fun (_ : Unit) => c8Payload) id id
      (compressPayload (fun (_ : SpbPayload Unit) => ()) id id
        (some { compress := some true, algorithm := some "GZIP" }) c8Payload)
      = .ok c8Payload :=
  (C9_compress_roundtrip (fun _ => ()) (fun _ => c8Payload) id id id id
    c8Payload (by decide)).1 rfl

/-! ## Sequence numbering (src/mqtt.ts)

The `seq` counter lives on the node; `addSeqNumber` (lines 145 to 154)
normalises a counter of 256 back to 0, attaches the current counter as
the payload `seq` field (the postfix `sparkplug.seq++ || 0` yields the
old value; `|| 0` is the identity on the stored values), and increments.
Every DBIRTH / DDEATH / DDATA / NDATA / NCMD / DCMD publish goes
through `publishPayload` and hence through `addSeqNumberCurry`.
`publishNodeBirth` (lines 191 to 212) ignores its `_seq` argument, adds
no seq field and leaves the counter untouched, and `getDeathPayload`
(the NDEATH payload) carries no seq field either. -/

/-- Shallow embedding of `addSeqNumber` acting on the counter: returns
the seq value attached to the outgoing payload and the updated
counter. -/
def addSeqNumber (seq : Nat) : Nat × Nat :=
  let s := if seq = 256 then 0 else seq
  (s, s + 1)

/-- The publish kinds an edge node produces. -/
inductive NodeCmd where
  | nbirth | ndeath | ndata | dbirth | ddata | ddeath
deriving DecidableEq, Repr

/-- Whether the publish goes through `publishPayload` and therefore
receives a seq field from `addSeqNumber`.  NBIRTH goes through
`publishNodeBirth` (no seq, counter untouched); NDEATH goes through
`publishNodeDeath` with `getDeathPayload` (no seq). -/
def usesSeq : NodeCmd → Bool
  | .nbirth => false
  | .ndeath => false
  | _ => true

/-- Run a list of publishes against the seq counter, recording the seq
field attached to each outgoing payload (`none` when the payload
carries no seq field). -/
def runPublishes (c : Nat) : List NodeCmd → List (NodeCmd × Option Nat)
  | [] => []
  | cmd :: rest =>
    if usesSeq cmd then
      let p := addSeqNumber c
      (cmd, some p.1) :: runPublishes p.2 rest
    else
      (cmd, none) :: runPublishes c rest

/-- The counter value after k seq-numbered publishes starting from the
fresh counter 0 that `createNode` installs. -/
def seqCounterAfter : Nat → Nat
  | 0 => 0
  | k + 1 => k % 256 + 1

/-- Modelled from the spec (the amended form of claim C1): the k-th
seq-numbered publish of the trace carries seq = k mod 256 (so
consecutive seq-numbered publishes differ by 1 mod 256, wrapping 255
to 0), while NBIRTH and NDEATH publishes carry no seq field and do not
disturb the numbering. -/
def expectedSeqs (k : Nat) : List NodeCmd → List (NodeCmd × Option Nat)
  | [] => []
  | cmd :: rest =>
    if usesSeq cmd then (cmd, some (k % 256)) :: expectedSeqs (k + 1) rest
    else (cmd, none) :: expectedSeqs k rest

lemma addSeqNumber_counterAfter (k : Nat) :
    addSeqNumber (seqCounterAfter k) = (k % 256, seqCounterAfter (k + 1)) := by
  cases k with
  | zero => rfl
  | succ n =>
    simp only [seqCounterAfter, addSeqNumber, Prod.mk.injEq]
    split <;> constructor <;> omega

lemma runPublishes_expected (cmds : List NodeCmd) (k : Nat) :
    runPublishes (seqCounterAfter k) cmds = expectedSeqs k cmds := by
  induction cmds generalizing k with
  | nil => rfl
  | cons cmd rest ih =>
    simp only [runPublishes, expectedSeqs]
    by_cases h : usesSeq cmd = true
    · rw [if_pos h, if_pos h, addSeqNumber_counterAfter]
      simp [ih (k + 1)]
    · rw [if_neg h, if_neg h, ih k]

/-- C1, amended.  Starting from the counter 0 of a fresh node, the
seq-numbered publishes (NDATA, DBIRTH, DDATA, DDEATH) carry
0, 1, 2, ... mod 256 in order, i.e. each carries the previous seq plus
1 mod 256 with 255 wrapping to 0; NBIRTH publishes carry no seq field
and do not reset the counter (the seq parameter of publishNodeBirth is
ignored), and NDEATH payloads carry no seq field. -/
theorem C1_seq_accounting (cmds : List NodeCmd) :
    runPublishes 0 cmds = expectedSeqs 0 cmds :=
  runPublishes_expected cmds 0

/-- C1, counterexample.  The claim requires every BIRTH publish to
carry a seq field and requires NBIRTH to reset the sequence to 0, so
after NDATA(0), NDATA(1), NBIRTH the next NDATA would carry 1 (NBIRTH
itself carrying 0).  The code attaches no seq field at all to the
NBIRTH publish and leaves the counter alone, so the next NDATA carries
2. -/
theorem C1_counterexample :
    runPublishes 0 [.nbirth] = [(.nbirth, none)] ∧
      runPublishes 0 [.ndata, .ndata, .nbirth, .ndata]
        = [(.ndata, some 0), (.ndata, some 1), (.nbirth, none),
            (.ndata, some 2)] := by
  constructor <;> decide

/-! ## bdSeq accounting (src/mqtt.ts createMqttClient and
publishNodeBirth; src/unnamed/part_003 nodeTransitions and createNode)

`createNode` initialises `bdseq: 0`.  The connect transition reads the
current `node.bdseq` and bakes it into the NDEATH will configured on
the new MQTT client (`createMqttClient` with `getDeathPayload(bdSeq)`);
the birth transition passes `node.bdseq` to `publishNodeBirth`, which
adds it as the `bdSeq` metric of the NBIRTH.  No code path ever writes
`node.bdseq` after creation. -/

/-- The MQTT client from the node's point of view: the bdSeq baked
into the configured NDEATH will. -/
structure EdgeMqttClient where
  willBdseq : Nat
deriving DecidableEq, Repr

/-- The bdSeq-relevant state of a Sparkplug node. -/
structure NodeSession where
  bdseq : Nat
  seq : Nat
  mqtt : Option EdgeMqttClient
deriving DecidableEq, Repr

/-- Node state created by `createNode` (src/unnamed/part_003, lines
614 to 632) before the connect transition it immediately triggers:
bdseq and seq start at 0, mqtt is null. -/
def createNodeSession : NodeSession := { bdseq := 0, seq := 0, mqtt := none }

/-- Shallow embedding of `nodeTransitions.connect`:
`node.mqtt = createMqttClient(config, node.bdseq)`, whose will payload
is `getDeathPayload(bdSeq)`.  The node's bdseq is read, never
written. -/
def nodeConnect (n : NodeSession) : NodeSession :=
  { n with mqtt := some { willBdseq := n.bdseq } }

/-- Shallow embedding of the client teardown in
`nodeTransitions.disconnect` (`destroyMqttClient`). -/
def nodeDisconnect (n : NodeSession) : NodeSession := { n with mqtt := none }

/-- Session operations relevant to bdSeq accounting. -/
inductive NodeSessionOp where
  | connect | disconnect | birth
deriving DecidableEq, Repr

/-- Run session operations.  A birth with a live client records the
pair (bdSeq metric carried by the NBIRTH, bdSeq inside the NDEATH will
of the current session); `nodeTransitions.birth` publishes only when
`node.mqtt` exists. -/
def runSession : NodeSession → List NodeSessionOp → NodeSession × List (Nat × Nat)
  | n, [] => (n, [])
  | n, .connect :: rest => runSession (nodeConnect n) rest
  | n, .disconnect :: rest => runSession (nodeDisconnect n) rest
  | n, .birth :: rest =>
    let e : List (Nat × Nat) :=
      match n.mqtt with
      | some cl => [(n.bdseq, cl.willBdseq)]
      | none => []
    let r := runSession n rest
    (r.1, e ++ r.2)

lemma runSession_bdseq (ops : List NodeSessionOp) (n : NodeSession)
    (h : n.mqtt.all (fun cl => cl.willBdseq == n.bdseq) = true) :
    (runSession n ops).1.bdseq = n.bdseq ∧
      (runSession n ops).2.all
        (fun e => e.1 == e.2 && e.1 == n.bdseq) = true := by
  induction ops generalizing n with
  | nil => simp [runSession]
  | cons op rest ih =>
    cases op with
    | connect =>
      have := ih (nodeConnect n) (by simp [nodeConnect])
      simpa [runSession, nodeConnect] using this
    | disconnect =>
      have := ih (nodeDisconnect n) (by simp [nodeDisconnect])
      simpa [runSession, nodeDisconnect] using this
    | birth =>
      have hr := ih n h
      cases hm : n.mqtt with
      | none => simpa [runSession, hm] using hr
      | some cl =>
        have hcl : cl.willBdseq = n.bdseq := by
          rw [hm] at h; simpa using h
        simp [runSession, hm, hcl, hr.1, hr.2]

/-- C2, amended.  bdSeq is initialised to 0 by createNode and no code
path (in particular not the connect transition) ever increments it;
every NBIRTH published in a session carries a bdSeq metric equal to
the bdSeq embedded in the NDEATH will of that session, both being the
node's (constant, zero) bdseq. -/
theorem C2_bdseq_will_agreement (ops : List NodeSessionOp) :
    (runSession createNodeSession ops).1.bdseq = 0 ∧
      (runSession createNodeSession ops).2.all
        (fun e => e.1 == e.2 && e.1 == 0) = true :=
  runSession_bdseq ops createNodeSession (by rfl)

/-- C2, counterexample.  The claim requires each connect() call to
increment bdSeq by 1 before opening the MQTT session, so the first
connect would leave bdseq = 1 and configure a will with bdSeq 1, and a
reconnect would move to 2.  The code leaves bdseq at 0 forever and
always configures the will with bdSeq 0. -/
theorem C2_counterexample :
    (nodeConnect createNodeSession).bdseq = 0 ∧
      (nodeConnect createNodeSession).bdseq ≠ createNodeSession.bdseq + 1 ∧
      (nodeConnect createNodeSession).mqtt = some { willBdseq := 0 } ∧
      (nodeConnect (nodeDisconnect (nodeConnect createNodeSession))).bdseq
        = 0 := by
  refine ⟨rfl, by decide, rfl, rfl⟩

/-! ## Node and device lifecycle transitions
(src/unnamed/part_003: birthNode, killNode, changeNodeState,
deriveSetNodeState; src/stateMachines/device.ts: birthDevice,
killDevice, changeDeviceState, deriveSetDeviceState)

Each public transition is a pipe of `changeNodeState` (guard check: on
failure only a log.info, on success the `nodeTransitions` entry runs)
followed by an unconditional `setNodeState...` (reset all state flags,
then merge the target); devices are analogous.  Logging is not
modelled; the `Emission` list records MQTT publishes and event-bus
emissions, both of which are empty on a failed guard. -/

/-- The `states` record of a node: `connected.born`, `connected.dead`,
`disconnected`. -/
structure NodeStates where
  born : Bool
  dead : Bool
  disconnected : Bool
deriving DecidableEq, Repr

/-- Result of `setNodeStateBorn` (resetNodeState then merge
connected = born true, dead false). -/
def nodeStatesBorn : NodeStates := ⟨true, false, false⟩

/-- Result of `setNodeStateDead` and of `setNodeStateConnected`. -/
def nodeStatesDead : NodeStates := ⟨false, true, false⟩

/-- Result of `setNodeStateDisconnected`. -/
def nodeStatesDisconnected : NodeStates := ⟨false, false, true⟩

/-- The lifecycle-relevant node state: states record plus whether
`node.mqtt` is non-null. -/
structure LifecycleNode where
  states : NodeStates
  hasMqtt : Bool
deriving DecidableEq, Repr

/-- Observable outputs of a transition: an MQTT publish or an
event-bus emission. -/
inductive Emission where
  | publish (cmd : NodeCmd)
  | event (name : String)
deriving DecidableEq, Repr

/-- Shallow embedding of `birthNode` (src/unnamed/part_003, lines 366
to 375): changeNodeState with guard `states.connected.dead` (failure:
log only; success: `nodeTransitions.birth`, which publishes NBIRTH
when the client exists and only warns otherwise), then the
unconditional `setNodeStateBorn`. -/
def birthNode (n : LifecycleNode) : LifecycleNode × List Emission :=
  let out : List Emission :=
    if n.states.dead then
      if n.hasMqtt then [.publish .nbirth] else []
    else []
  ({ n with states := nodeStatesBorn }, out)

/-- Shallow embedding of `killNode` (lines 382 to 391): guard
`states.connected.born`; success publishes NDEATH when the client
exists; then the unconditional `setNodeStateDead`. -/
def killNode (n : LifecycleNode) : LifecycleNode × List Emission :=
  let out : List Emission :=
    if n.states.born then
      if n.hasMqtt then [.publish .ndeath] else []
    else []
  ({ n with states := nodeStatesDead }, out)

/-- The `states` record of a device. -/
structure DeviceStates where
  born : Bool
  dead : Bool
deriving DecidableEq, Repr

/-- Result of `setDeviceStateBorn`. -/
def deviceStatesBorn : DeviceStates := ⟨true, false⟩

/-- Result of `setDeviceStateDead`. -/
def deviceStatesDead : DeviceStates := ⟨false, true⟩

/-- Shallow embedding of `birthDevice` (src/stateMachines/device.ts,
lines 185 to 195): guard `device.states.dead`; success runs
`publishDeviceBirth` (a `publishPayload`, which publishes DBIRTH and
emits the publish-dbirth event) when the owning node's client exists;
then the unconditional `setDeviceStateBorn`. -/
def birthDevice (nodeHasMqtt : Bool) (d : DeviceStates) :
    DeviceStates × List Emission :=
  let out : List Emission :=
    if d.dead then
      if nodeHasMqtt then [.publish .dbirth, .event "publish-dbirth"] else []
    else []
  (deviceStatesBorn, out)

/-- Shallow embedding of `killDevice` (lines 203 to 213): guard
`device.states.born`; success publishes DDEATH and emits
publish-ddeath when the client exists; then the unconditional
`setDeviceStateDead`. -/
def killDevice (nodeHasMqtt : Bool) (d : DeviceStates) :
    DeviceStates × List Emission :=
  let out : List Emission :=
    if d.born then
      if nodeHasMqtt then [.publish .ddeath, .event "publish-ddeath"] else []
    else []
  (deviceStatesDead, out)

/-- C6, counterexample.  Calling birth() on a node that is not
connected-dead (here: a disconnected node, exactly the claim's
example) publishes nothing and emits no event, but it does NOT leave
the states record unchanged: the trailing setNodeStateBorn still runs
and flips the node from disconnected to connected-born. -/
theorem C6_counterexample :
    (birthNode { states := nodeStatesDisconnected, hasMqtt := true }).2
        = [] ∧
      (birthNode { states := nodeStatesDisconnected, hasMqtt := true }).1.states
        = nodeStatesBorn ∧
      nodeStatesBorn ≠ nodeStatesDisconnected := by
  refine ⟨rfl, rfl, by decide⟩

/-- C6, amended.  A lifecycle transition whose guard fails publishes
nothing to MQTT and emits no event (only a log line is produced), but
the trailing state-setter still runs unconditionally: the states
record always ends up at the transition's target state.  It is
therefore unchanged exactly when the entity already was in the target
state, which covers birth on an already-born entity and death on an
already-dead one, but not birth on a disconnected node, which moves to
connected-born without a publish. -/
theorem C6_failed_guard (n : LifecycleNode) (d : DeviceStates) (hm : Bool) :
    (n.states.dead = false →
      (birthNode n).2 = [] ∧ (birthNode n).1.states = nodeStatesBorn) ∧
    (n.states.born = false →
      (killNode n).2 = [] ∧ (killNode n).1.states = nodeStatesDead) ∧
    (d.dead = false →
      (birthDevice hm d).2 = [] ∧ (birthDevice hm d).1 = deviceStatesBorn) ∧
    (d.born = false →
      (killDevice hm d).2 = [] ∧ (killDevice hm d).1 = deviceStatesDead) ∧
    ((birthNode n).1.states = n.states ↔ n.states = nodeStatesBorn) ∧
    ((killNode n).1.states = n.states ↔ n.states = nodeStatesDead) ∧
    ((birthDevice hm d).1 = d ↔ d = deviceStatesBorn) ∧
    ((killDevice hm d).1 = d ↔ d = deviceStatesDead) := by
  refine ⟨fun h => ⟨by simp [birthNode, h], rfl⟩,
    fun h => ⟨by simp [killNode, h], rfl⟩,
    fun h => ⟨by simp [birthDevice, h], rfl⟩,
    fun h => ⟨by simp [killDevice, h], rfl⟩,
    eq_comm, eq_comm, eq_comm, eq_comm⟩

/-- Witness for C6_failed_guard: birth on a disconnected node with a
live client. -/
theorem C6_witness :
    (birthNode { states := nodeStatesDisconnected, hasMqtt := true }).2
        = [] ∧
      (birthNode { states := nodeStatesDisconnected, hasMqtt := true }).1.states
        = nodeStatesBorn :=
  (C6_failed_guard { states := nodeStatesDisconnected, hasMqtt := true }
    deviceStatesDead true).1 rfl

/-! ## String-keyed maps

JavaScript objects used as maps are modelled as insertion-ordered
association lists.  `jsSet` is JS property assignment: replace the
value at an existing key in place, otherwise append; `jsGet` is
property lookup. -/

/-- Insertion-ordered string-keyed map, modelling a JS object. -/
abbrev JSMap (α : Type) := List (String × α)

/-- Property lookup on a JS object. -/
def jsGet {α : Type} : JSMap α → String → Option α
  | [], _ => none
  | p :: rest, k => if p.1 = k then some p.2 else jsGet rest k

/-- Property assignment on a JS object: replace at an existing key,
keeping its position, otherwise append. -/
def jsSet {α : Type} : JSMap α → String → α → JSMap α
  | [], k, v => [(k, v)]
  | p :: rest, k, v => if p.1 = k then (k, v) :: rest else p :: jsSet rest k v

lemma jsGet_jsSet_self {α : Type} (m : JSMap α) (k : String) (v : α) :
    jsGet (jsSet m k v) k = some v := by
  induction m with
  | nil => simp [jsGet, jsSet]
  | cons p rest ih =>
    by_cases h : p.1 = k
    · simp [jsGet, jsSet, h]
    · simp [jsGet, jsSet, h, ih]

lemma jsGet_jsSet_other {α : Type} (m : JSMap α) (k k' : String) (v : α)
    (h : k' ≠ k) : jsGet (jsSet m k v) k' = jsGet m k' := by
  have hkk : ¬k = k' := fun hk => h hk.symm
  induction m with
  | nil => simp [jsGet, jsSet, hkk]
  | cons p rest ih =>
    by_cases hp : p.1 = k
    · simp only [jsSet, if_pos hp, jsGet, if_neg hkk,
        if_neg (fun hc => hkk (hp.symm.trans hc))]
    · simp only [jsSet, if_neg hp, jsGet]
      by_cases hp' : p.1 = k'
      · simp [hp']
      · simp [hp', ih]

lemma jsGet_jsSet_isSome {α : Type} (m : JSMap α) (k k' : String) (v : α)
    (h : (jsGet m k').isSome = true) :
    (jsGet (jsSet m k v) k').isSome = true := by
  by_cases hk : k' = k
  · subst hk; simp [jsGet_jsSet_self]
  · rwa [jsGet_jsSet_other m k k' v hk]

/-! ## The scan scheduler (src/unnamed/part_003: evaluateMetrics,
setLastPublished, publishMetrics)

Producer metric values are resolved to scalars by
`evaluateMetricValue` before any function modelled here inspects them,
so metric values are plain `JSVal` scalars and evaluation is the
identity on them.  `evaluateMetric` additionally stamps the metric
copy with `getUnixTime(new Date())` (here the `nowSec` parameter);
the published copies and `setLastPublished` use `Date.now()` (the
`now` parameter). -/

/-- Shallow embedding of `evaluateMetric`
(src/stateMachines/utils.ts): copy the metric with its evaluated
(already scalar) value and the current unix-time stamp. -/
def evaluateMetric (nowSec : Int) (m : RbeMetric) : RbeMetric :=
  { m with timestamp := some nowSec }

/-- Shallow embedding of `evaluateMetrics`: evaluate every value of
the metrics object (Object.values order = insertion order). -/
def evaluateMetrics (nowSec : Int) (metrics : JSMap RbeMetric) :
    List RbeMetric :=
  metrics.map (fun p => evaluateMetric nowSec p.2)

/-- Shallow embedding of `setLastPublished` (src/unnamed/part_003,
lines 421 to 431), acting on the parent's metrics object.  The guard
is `if (metric.name && metric.value)`: JavaScript truthiness of both
the name and the current value, so a value of 0, false, empty string,
or null skips the update entirely.  When the guard passes it sets
`parent.metrics[metric.name].lastPublished = { timestamp: Date.now(),
value: evaluated value }` (re-evaluation of an already scalar value is
the identity).  When the name is not a key of the parent map the
source rejects an unawaited promise, which is swallowed (the forEach
caller does not await), leaving the map unchanged, as modelled
here. -/
def setLastPublished (now : Int) (metrics : JSMap RbeMetric)
    (metric : RbeMetric) : JSMap RbeMetric :=
  if metric.name != "" && jsTruthy metric.value then
    match jsGet metrics metric.name with
    | some old =>
      jsSet metrics metric.name
        { old with lastPublished := some { timestamp := now, value := metric.value } }
    | none => metrics
  else metrics

/-- A device owned by the scheduler's node. -/
structure SchedDevice where
  metrics : JSMap RbeMetric
deriving DecidableEq, Repr

/-- The scheduler-relevant state of a node. -/
structure SchedNode where
  metrics : JSMap RbeMetric
  devices : JSMap SchedDevice
  hasMqtt : Bool
deriving DecidableEq, Repr

/-- A data message published by the scheduler. -/
inductive DataMsg where
  | ndata (timestamp : Int) (metrics : List RbeMetric)
  | ddata (deviceId : String) (timestamp : Int) (metrics : List RbeMetric)
deriving DecidableEq, Repr

/-- The filter `(m) => p m && metricNeedsToPublish(m)` with JavaScript
short-circuiting: the gate only runs on metrics passing `p`, and a
gate that throws (modelled `none`) aborts the whole evaluation. -/
def gateFilter (now : Int) (p : RbeMetric → Bool) :
    List RbeMetric → Option (List RbeMetric)
  | [] => some []
  | m :: rest =>
    if p m then
      match metricNeedsToPublish now m with
      | none => none
      | some b =>
        (gateFilter now p rest).map (fun l => if b then m :: l else l)
    else gateFilter now p rest

/-- The device half of `publishMetrics` (the for-loop over
`flatten(node.devices)`): per device, evaluate, filter by the default
metricSelector, the scan-rate test `scanRate == null || m.scanRate ===
scanRate`, and the RBE gate; when the result is non-empty and the
client exists, publish one DDATA and update `lastPublished` on the
published metrics (the update runs only inside this branch). -/
def publishDevices (now nowSec : Int) (hasMqtt : Bool) (scanRate : Option Int) :
    JSMap SchedDevice → Option (JSMap SchedDevice × List DataMsg)
  | [] => some ([], [])
  | (devId, device) :: rest => do
    let evaluated := evaluateMetrics nowSec device.metrics
    let metrics ← gateFilter now
      (fun m => scanRate.isNone || m.scanRate == scanRate) evaluated
    let step : SchedDevice × List DataMsg :=
      if !metrics.isEmpty && hasMqtt then
        ({ metrics := metrics.foldl (setLastPublished now) device.metrics },
          [DataMsg.ddata devId now
            (metrics.map (fun m => { m with timestamp := some now }))])
      else (device, [])
    let r ← publishDevices now nowSec hasMqtt scanRate rest
    return ((devId, step.1) :: r.1, step.2 ++ r.2)

/-- Shallow embedding of `publishMetrics` (src/unnamed/part_003,
lines 522 to 571).  The node half filters by the strict scan-rate test
`m.scanRate === scanRate` and the RBE gate, publishes one NDATA when
non-empty and the client exists, and then updates `lastPublished` on
the filtered metrics UNCONDITIONALLY (the forEach sits outside the
publish guard); the device half follows.  `none` models a rejected
evaluation (a throwing RBE gate). -/
def publishMetrics (now nowSec : Int) (node : SchedNode)
    (scanRate : Option Int) : Option (SchedNode × List DataMsg) := do
  let evaluated := evaluateMetrics nowSec node.metrics
  let nodeMetrics ← gateFilter now (fun m => m.scanRate == scanRate) evaluated
  let msgs : List DataMsg :=
    if !nodeMetrics.isEmpty && node.hasMqtt then
      [DataMsg.ndata now
        (nodeMetrics.map (fun m => { m with timestamp := some now }))]
    else []
  let newNodeMetrics := nodeMetrics.foldl (setLastPublished now) node.metrics
  let r ← publishDevices now nowSec node.hasMqtt scanRate node.devices
  return ({ node with metrics := newNodeMetrics, devices := r.1 }, msgs ++ r.2)

/-- The metric of the C7 failing input: Int32 metric named x, current
value 0, scan rate 1000, never published before. -/
def c7MetricX : RbeMetric :=
  { name := "x", type := "Int32", value := .num 0, scanRate := some 1000 }

/-- The node of the C7 failing input, holding `c7MetricX` and a live
MQTT client. -/
def c7Node : SchedNode :=
  { metrics := [("x", c7MetricX)], devices := [], hasMqtt := true }

/-- C7.  At the failing input, the scan tick publishes the metric x
with value 0 on the wire (it has never been published, so the RBE gate
returns true), but the node comes back with its metrics object
unchanged: `setLastPublished`'s truthiness guard
`if (metric.name && metric.value)` treats the value 0 as falsy and
never records `lastPublished`, contradicting the claim (and spec I5)
that every metric that went out gets `lastPublished = {timestamp: now,
value: sent value}` for all scalar values including 0. -/
theorem C7_value_zero_not_recorded :
    publishMetrics 50 40 c7Node (some 1000)
        = some (c7Node,
            [DataMsg.ndata 50
              [{ name := "x", type := "Int32", value := .num 0,
                 timestamp := some 50, scanRate := some 1000 }]]) ∧
      (jsGet c7Node.metrics "x").bind (fun m => m.lastPublished) = none := by
  constructor <;> decide

/-! ## The host topology mirror (src/stateMachines/host.ts)

Structures mirror the JS objects the handlers build.  Spread-built
skeleton objects can lack the `id` and `metrics` keys, so those fields
are optional; accessing a missing `metrics` key through the
non-optional chain in `updateHostMetric` throws, which the `threw`
flag of `UhmState` records (the `processDataEvent` try/catch then
swallows it, keeping all mutations made before the throw). -/

/-- A device entry of the mirror: always created with an id. -/
structure HDevice where
  id : String
  metrics : JSMap PMetric
deriving DecidableEq, Repr

/-- A node entry of the mirror.  A skeleton node built by the spread in
`updateHostMetric` has neither an `id` nor a `metrics` key. -/
structure HNode where
  id : Option String := none
  metrics : Option (JSMap PMetric) := none
  devices : JSMap HDevice := []
deriving DecidableEq, Repr

/-- A group entry of the mirror.  A skeleton group built by the spread
in `updateHostMetric` has no `id` key. -/
structure HGroup where
  id : Option String := none
  nodes : JSMap HNode := []
deriving DecidableEq, Repr

/-- The mirror-relevant state of a host: the groups tree and whether
`host.mqtt` is non-null (the guard of `publishNodeRebirthRequest`). -/
structure HostMirror where
  groups : JSMap HGroup := []
  mqttConnected : Bool := false
deriving DecidableEq, Repr

/-- A parsed Sparkplug topic as the host handlers consume it. -/
structure HTopic where
  groupId : String
  edgeNode : String
  deviceId : Option String := none
deriving DecidableEq, Repr

/-- The metric of the rebirth NCMD payload built by
`createCommandPayload("NCMD", "Rebirth", "Boolean", true)`:
name "Node Control/Rebirth", type Boolean, value true. -/
def rebirthMetric : PMetric :=
  { name := some "Node Control/Rebirth", type := some "Boolean",
    value := .boolean true }

/-- A rebirth NCMD request issued by `publishNodeRebirthRequest`,
addressed to the node's NCMD topic and carrying `rebirthMetric`. -/
structure RebirthRequest where
  groupId : String
  edgeNode : String
  metric : PMetric
deriving DecidableEq, Repr

/-- The rebirth request for a given group and edge node. -/
def rebirthRequest (g n : String) : RebirthRequest :=
  { groupId := g, edgeNode := n, metric := rebirthMetric }

/-- Shallow embedding of `publishNodeRebirthRequest` (host.ts lines
671 to 687): appends the NCMD request only when `host.mqtt` exists. -/
def publishNodeRebirthRequest (host : HostMirror) (topic : HTopic)
    (reqs : List RebirthRequest) : List RebirthRequest :=
  if host.mqttConnected then
    reqs ++ [rebirthRequest topic.groupId topic.edgeNode]
  else reqs

/-- The optional chain `host.groups[g]?.nodes[n]`. -/
def lookupNode (host : HostMirror) (g n : String) : Option HNode :=
  (jsGet host.groups g).bind (fun gr => jsGet gr.nodes n)

/-- The optional chain `host.groups[g]?.nodes[n]?.devices[d]`. -/
def lookupDevice (host : HostMirror) (g n d : String) : Option HDevice :=
  (lookupNode host g n).bind (fun node => jsGet node.devices d)

/-- The spread-rebuild of `host.groups` performed by `updateHostMetric`
(host.ts lines 526 to 544) when the device entry is missing: rebuild
the group, node and devices objects around a fresh skeleton device
`{id: deviceId, metrics: {}}`, preserving whatever keys the existing
objects had (an absent group or node spreads to an empty object,
which is why skeleton entries lack `id` and `metrics`). -/
def insertDeviceSkeleton (host : HostMirror) (g n d : String) : HostMirror :=
  let oldGroup := jsGet host.groups g
  let oldNodes := (oldGroup.map (fun gr => gr.nodes)).getD []
  let oldNode := jsGet oldNodes n
  let newNode : HNode :=
    { id := oldNode.bind (fun node => node.id),
      metrics := oldNode.bind (fun node => node.metrics),
      devices := jsSet ((oldNode.map (fun node => node.devices)).getD []) d
        { id := d, metrics := [] } }
  let newGroup : HGroup :=
    { id := oldGroup.bind (fun gr => gr.id),
      nodes := jsSet oldNodes n newNode }
  { host with groups := jsSet host.groups g newGroup }

/-- State threaded through the per-metric loop of `updateHostMetric`:
the mutated host, the rebirth requests issued so far, and whether the
loop has thrown (mutations before the throw persist; the caller's
try/catch swallows the exception). -/
structure UhmState where
  host : HostMirror
  reqs : List RebirthRequest
  threw : Bool
deriving DecidableEq, Repr

/-- One iteration of the `message.metrics?.forEach` body of
`updateHostMetric` (host.ts lines 518 to 557).  Per metric: (1) if
`host.groups[g]?.nodes[n]` is absent, issue a rebirth request; (2)
with a deviceId, create the skeleton device entry if missing and then
assign `...devices[d].metrics[name] = metric` for a truthy name; (3)
without a deviceId, assign
`host.groups[g].nodes[n].metrics[name] = metric` through a
non-optional chain, which throws when the group, the node, or the
node's metrics key is missing. -/
def uhmStep (topic : HTopic) (st : UhmState) (m : PMetric) : UhmState :=
  if st.threw then st
  else
    let g := topic.groupId
    let n := topic.edgeNode
    let reqs :=
      if (lookupNode st.host g n).isNone then
        publishNodeRebirthRequest st.host topic st.reqs
      else st.reqs
    match topic.deviceId with
    | some d =>
      let host1 :=
        if (lookupDevice st.host g n d).isNone then
          insertDeviceSkeleton st.host g n d
        else st.host
      match m.name with
      | some nm =>
        if nm != "" then
          match jsGet host1.groups g with
          | none => { host := host1, reqs := reqs, threw := true }
          | some gr =>
            match jsGet gr.nodes n with
            | none => { host := host1, reqs := reqs, threw := true }
            | some node =>
              match jsGet node.devices d with
              | none => { host := host1, reqs := reqs, threw := true }
              | some dev =>
                let dev' := { dev with metrics := jsSet dev.metrics nm m }
                let node' := { node with devices := jsSet node.devices d dev' }
                let gr' := { gr with nodes := jsSet gr.nodes n node' }
                { host := { host1 with groups := jsSet host1.groups g gr' },
                  reqs := reqs, threw := false }
        else { host := host1, reqs := reqs, threw := false }
      | none => { host := host1, reqs := reqs, threw := false }
    | none =>
      match m.name with
      | some nm =>
        if nm != "" then
          match jsGet st.host.groups g with
          | none => { st with reqs := reqs, threw := true }
          | some gr =>
            match jsGet gr.nodes n with
            | none => { st with reqs := reqs, threw := true }
            | some node =>
              match node.metrics with
              | none => { st with reqs := reqs, threw := true }
              | some mm =>
                let node' := { node with metrics := some (jsSet mm nm m) }
                let gr' := { gr with nodes := jsSet gr.nodes n node' }
                { host := { st.host with groups := jsSet st.host.groups g gr' },
                  reqs := reqs, threw := false }
        else { st with reqs := reqs }
      | none => { st with reqs := reqs }

/-- Shallow embedding of `updateHostMetric`: iterate the metric list
(an absent list skips the loop). -/
def updateHostMetric (topic : HTopic) (message : Option (List PMetric))
    (host : HostMirror) (reqs : List RebirthRequest) : UhmState :=
  match message with
  | none => { host := host, reqs := reqs, threw := false }
  | some ms => ms.foldl (uhmStep topic) { host := host, reqs := reqs, threw := false }

/-- Shallow embedding of `unflatten` (src/stateMachines/utils.ts,
lines 157 to 172) on payload metric arrays: key each metric by
`item.id ?? item.name` (payload metrics carry no id, so by name),
skipping falsy keys. -/
def unflatten (arr : Option (List PMetric)) : JSMap PMetric :=
  match arr with
  | none => []
  | some l =>
    l.foldl (fun acc m =>
      match m.name with
      | some nm => if nm != "" then jsSet acc nm m else acc
      | none => acc) []

/-- Shallow embedding of `createHostNode` (host.ts lines 616 to 637):
replace `groups[g].nodes[n]` by a fresh node entry carrying the
indexed payload metrics (creating the group carrying its id when
absent), then run `updateHostMetric` for the nbirth event. -/
def createHostNode (topic : HTopic) (message : Option (List PMetric))
    (host : HostMirror) : UhmState :=
  let g := topic.groupId
  let n := topic.edgeNode
  let newNode : HNode :=
    { id := some n, metrics := some (unflatten message), devices := [] }
  let groups :=
    match jsGet host.groups g with
    | none => jsSet host.groups g { id := some g, nodes := [(n, newNode)] }
    | some gr => jsSet host.groups g { gr with nodes := jsSet gr.nodes n newNode }
  updateHostMetric topic message { host with groups := groups } []

/-- The device assignment of `createHostDevice`'s else branch:
`host.groups[g].nodes[n].devices[d] = {id: d, metrics: unflatten(...)}`.
The source performs it through a non-optional chain that is only
reached when the node exists, where this helper coincides. -/
def setNodeDevice (host : HostMirror) (g n d : String) (dev : HDevice) :
    HostMirror :=
  match jsGet host.groups g with
  | none => host
  | some gr =>
    match jsGet gr.nodes n with
    | none => host
    | some node =>
      let node' : HNode := { node with devices := jsSet node.devices d dev }
      let gr' : HGroup := { gr with nodes := jsSet gr.nodes n node' }
      { host with groups := jsSet host.groups g gr' }

/-- Shallow embedding of `createHostDevice` (host.ts lines 647 to
660): with a deviceId, either issue a rebirth request (node absent) or
store the device with its indexed metrics; then `updateHostMetric`
runs UNCONDITIONALLY for the dbirth event (the call sits outside the
`if (deviceId)` block and outside the else branch). -/
def createHostDevice (topic : HTopic) (message : Option (List PMetric))
    (host : HostMirror) : UhmState :=
  let g := topic.groupId
  let n := topic.edgeNode
  let start : HostMirror × List RebirthRequest :=
    match topic.deviceId with
    | some d =>
      if (lookupNode host g n).isNone then
        (host, publishNodeRebirthRequest host topic [])
      else
        (setNodeDevice host g n d { id := d, metrics := unflatten message }, [])
    | none => (host, [])
  updateHostMetric topic message start.1 start.2

/-- The Sparkplug message kinds a host can receive. -/
inductive HostMsgKind where
  | nbirth | dbirth | ndata | ddata | ndeath | ddeath | ncmd | dcmd
deriving DecidableEq, Repr

/-- Dispatch of a received message on the host
(`createHostMessageEvents`, host.ts lines 743 to 750, with
`dataEventConditions`, lines 693 to 707): listeners exist ONLY for the
nbirth, dbirth, ndata and ddata events; `handleMessage` emits ndeath,
ddeath, ncmd and dcmd events too, but no listener is registered for
them, so those messages leave the mirror untouched and issue
nothing. -/
def hostProcessMessage (kind : HostMsgKind) (topic : HTopic)
    (message : Option (List PMetric)) (host : HostMirror) :
    HostMirror × List RebirthRequest :=
  match kind with
  | .nbirth => let st := createHostNode topic message host; (st.host, st.reqs)
  | .dbirth => let st := createHostDevice topic message host; (st.host, st.reqs)
  | .ndata => let st := updateHostMetric topic message host []; (st.host, st.reqs)
  | .ddata => let st := updateHostMetric topic message host []; (st.host, st.reqs)
  | _ => (host, [])

/-- A sample named payload metric used in the host counterexamples. -/
def mSample : PMetric :=
  { name := some "m1", type := some "Int32", value := .num 1 }

/-- C3, counterexample.  A host that observed NBIRTH(G,N) and then
NDEATH(G,N) still has groups[G].nodes[N]: there is no listener for the
ndeath event, so the NDEATH is never applied and the node entry
survives, although no NBIRTH was observed since the last NDEATH. -/
theorem C3_counterexample :
    (lookupNode
      (hostProcessMessage .ndeath { groupId := "G", edgeNode := "N" } none
        (hostProcessMessage .nbirth { groupId := "G", edgeNode := "N" }
          (some [mSample]) { groups := [], mqttConnected := true }).1).1
      "G" "N").isSome = true := by
  decide

/-- C3, amended.  The host registers message listeners only for
nbirth, dbirth, ndata and ddata; processing an NDEATH (or DDEATH)
message is a no-op: the mirror is left entirely unchanged, no rebirth
is issued, and groups[g].nodes[n] persists, so a node entry, once
created, is never removed by any death message. -/
theorem C3_ndeath_ignored (topic : HTopic) (message : Option (List PMetric))
    (host : HostMirror) :
    hostProcessMessage .ndeath topic message host = (host, []) ∧
      hostProcessMessage .ddeath topic message host = (host, []) :=
  ⟨rfl, rfl⟩

/-- C5, counterexample.  A DBIRTH for (G,N,D) while groups[G].nodes[N]
is absent does issue rebirth NCMD requests, but the DBIRTH is NOT
dropped: the unconditional updateHostMetric pass creates a skeleton
node and the device entry D and stores the metric m1 in the mirror
(and a second rebirth request is issued by that same pass). -/
theorem C5_counterexample :
    ((lookupDevice
        (hostProcessMessage .dbirth
          { groupId := "G", edgeNode := "N", deviceId := some "D" }
          (some [mSample]) { groups := [], mqttConnected := true }).1
        "G" "N" "D").bind
      (fun dev => jsGet dev.metrics "m1")).isSome = true ∧
    (hostProcessMessage .dbirth
        { groupId := "G", edgeNode := "N", deviceId := some "D" }
        (some [mSample]) { groups := [], mqttConnected := true }).2
      = [rebirthRequest "G" "N", rebirthRequest "G" "N"] := by
  constructor <;> decide

/-- The device entry the metric pass of `updateHostMetric` writes
through: the existing device, or the fresh skeleton when absent. -/
def devBase (host : HostMirror) (g n d : String) : HDevice :=
  (lookupDevice host g n d).getD { id := d, metrics := [] }

/-- The device entry after the metric pass stored metric m under key
nm: the base device with the metric assigned into its metrics map. -/
def devWrite (host : HostMirror) (g n d nm : String) (m : PMetric) : HDevice :=
  { id := (devBase host g n d).id,
    metrics := jsSet (devBase host g n d).metrics nm m }

lemma lookupDevice_some (host : HostMirror) (g n d : String) (dev : HDevice)
    (h : lookupDevice host g n d = some dev) :
    ∃ gr node, jsGet host.groups g = some gr ∧ jsGet gr.nodes n = some node ∧
      jsGet node.devices d = some dev := by
  unfold lookupDevice lookupNode at h
  rcases Option.bind_eq_some.mp h with ⟨node, hnode, hdev⟩
  rcases Option.bind_eq_some.mp hnode with ⟨gr, hgr, hnode2⟩
  exact ⟨gr, node, hgr, hnode2, hdev⟩

lemma uhmStep_dev (topic : HTopic) (d : String) (st : UhmState) (m : PMetric)
    (nm : String)
    (hd : topic.deviceId = some d) (hm : m.name = some nm) (hnm : nm ≠ "")
    (hthrew : st.threw = false) :
    (uhmStep topic st m).threw = false ∧
      (uhmStep topic st m).reqs
        = (if (lookupNode st.host topic.groupId topic.edgeNode).isNone then
            publishNodeRebirthRequest st.host topic st.reqs
          else st.reqs) ∧
      lookupDevice (uhmStep topic st m).host topic.groupId topic.edgeNode d
        = some (devWrite st.host topic.groupId topic.edgeNode d nm m) := by
  cases hg : jsGet st.host.groups topic.groupId with
  | none =>
    simp [uhmStep, hthrew, hd, hm, hnm, lookupDevice, lookupNode, hg,
      insertDeviceSkeleton, devWrite, devBase, jsGet_jsSet_self,
      publishNodeRebirthRequest]
  | some gr =>
    cases hn : jsGet gr.nodes topic.edgeNode with
    | none =>
      simp [uhmStep, hthrew, hd, hm, hnm, lookupDevice, lookupNode, hg, hn,
        insertDeviceSkeleton, devWrite, devBase, jsGet_jsSet_self,
        publishNodeRebirthRequest]
    | some node =>
      cases hv : jsGet node.devices d with
      | none =>
        simp [uhmStep, hthrew, hd, hm, hnm, lookupDevice, lookupNode, hg, hn,
          hv, insertDeviceSkeleton, devWrite, devBase, jsGet_jsSet_self,
          publishNodeRebirthRequest]
      | some dev =>
        simp [uhmStep, hthrew, hd, hm, hnm, lookupDevice, lookupNode, hg, hn,
          hv, insertDeviceSkeleton, devWrite, devBase, jsGet_jsSet_self,
          publishNodeRebirthRequest]

lemma uhmFold_dev (topic : HTopic) (d : String) (hd : topic.deviceId = some d) :
    ∀ (ms : List PMetric) (st : UhmState),
      st.threw = false →
      (∀ m ∈ ms, ∃ nm, m.name = some nm ∧ nm ≠ "") →
      (lookupDevice st.host topic.groupId topic.edgeNode d).isSome = true →
      (ms.foldl (uhmStep topic) st).threw = false ∧
        (ms.foldl (uhmStep topic) st).reqs = st.reqs ∧
        ∃ dev, lookupDevice (ms.foldl (uhmStep topic) st).host
            topic.groupId topic.edgeNode d = some dev ∧
          (∀ k, (jsGet (devBase st.host topic.groupId topic.edgeNode d).metrics
              k).isSome = true → (jsGet dev.metrics k).isSome = true) ∧
          (∀ m ∈ ms, ∀ nm, m.name = some nm →
            (jsGet dev.metrics nm).isSome = true) := by
  intro ms
  induction ms with
  | nil =>
    intro st hthrew _ hdev
    rcases Option.isSome_iff_exists.mp hdev with ⟨dev, hdv⟩
    exact ⟨hthrew, rfl, dev, hdv, by simp [devBase, hdv], by simp⟩
  | cons m rest ih =>
    intro st hthrew hnames hdev
    rcases hnames m (List.mem_cons_self m rest) with ⟨nm, hm, hnm⟩
    have hstep := uhmStep_dev topic d st m nm hd hm hnm hthrew
    have hnodeSome : (lookupNode st.host topic.groupId topic.edgeNode).isNone
        = false := by
      rcases Option.isSome_iff_exists.mp hdev with ⟨dev, hdv⟩
      rcases lookupDevice_some st.host _ _ d dev hdv with ⟨gr, node, hgr, hn, _⟩
      simp [lookupNode, hgr, hn]
    have hreqs : (uhmStep topic st m).reqs = st.reqs := by
      rw [hstep.2.1, hnodeSome]; rfl
    have hdev' : (lookupDevice (uhmStep topic st m).host
        topic.groupId topic.edgeNode d).isSome = true := by
      rw [hstep.2.2]; rfl
    have hrest := ih (uhmStep topic st m) hstep.1
      (fun m' hm' => hnames m' (List.mem_cons_of_mem m hm')) hdev'
    simp only [List.foldl_cons]
    refine ⟨hrest.1, by rw [hrest.2.1, hreqs], ?_⟩
    rcases hrest.2.2 with ⟨dev, hdv, hpres, hstored⟩
    refine ⟨dev, hdv, ?_, ?_⟩
    · intro k hk
      apply hpres k
      rw [devBase, hstep.2.2]
      simp only [Option.getD_some, devWrite]
      exact jsGet_jsSet_isSome
        (devBase st.host topic.groupId topic.edgeNode d).metrics nm k m hk
    · intro m' hm' nm' hm'name
      rcases List.mem_cons.mp hm' with h | h
      · subst h
        rw [hm] at hm'name
        injection hm'name with hnmeq
        subst hnmeq
        apply hpres nm
        rw [devBase, hstep.2.2]
        simp [devWrite, jsGet_jsSet_self]
      · exact hstored m' h nm' hm'name

/-- C5, amended.  A DBIRTH received for (g,n,d) while groups[g].nodes[n]
is absent (with a connected host client) issues rebirth NCMD requests
carrying the metric {name: "Node Control/Rebirth", type: "Boolean",
value: true} - one from createHostDevice's guard and a second from the
unconditional updateHostMetric pass over the payload - but the DBIRTH
is NOT dropped: the metric pass creates a skeleton node entry and the
device entry d, and every named metric of the payload is stored in the
mirror under the device. -/
theorem C5_dbirth_rebirth_and_applied (host : HostMirror) (g n d : String)
    (ms : List PMetric) (m0 : PMetric) (rest : List PMetric)
    (hms : ms = m0 :: rest)
    (hnode : lookupNode host g n = none)
    (hmqtt : host.mqttConnected = true)
    (hnames : ∀ m ∈ ms, ∃ nm, m.name = some nm ∧ nm ≠ "") :
    (hostProcessMessage .dbirth
        { groupId := g, edgeNode := n, deviceId := some d } (some ms) host).2
      = [rebirthRequest g n, rebirthRequest g n] ∧
      ∃ dev, lookupDevice
          (hostProcessMessage .dbirth
            { groupId := g, edgeNode := n, deviceId := some d }
            (some ms) host).1 g n d = some dev ∧
        ∀ m ∈ ms, ∀ nm, m.name = some nm →
          (jsGet dev.metrics nm).isSome = true := by
  subst hms
  rcases hnames m0 (List.mem_cons_self m0 rest) with ⟨nm0, hm0, hnm0⟩
  set topic : HTopic := { groupId := g, edgeNode := n, deviceId := some d }
    with htopic
  set st0 : UhmState :=
    { host := host, reqs := [rebirthRequest g n], threw := false } with hst0
  have hstart : hostProcessMessage .dbirth topic (some (m0 :: rest)) host
      = (((m0 :: rest).foldl (uhmStep topic) st0).host,
          ((m0 :: rest).foldl (uhmStep topic) st0).reqs) := by
    simp [hostProcessMessage, createHostDevice, htopic, hnode, hst0,
      updateHostMetric, publishNodeRebirthRequest, hmqtt, rebirthRequest]
  rw [hstart]
  have hstep := uhmStep_dev topic d st0 m0 nm0 rfl hm0 hnm0 rfl
  have hreqs1 : (uhmStep topic st0 m0).reqs
      = [rebirthRequest g n, rebirthRequest g n] := by
    rw [hstep.2.1]
    simp [htopic, hst0, hnode, publishNodeRebirthRequest, hmqtt,
      rebirthRequest]
  have hdev1 : (lookupDevice (uhmStep topic st0 m0).host
      topic.groupId topic.edgeNode d).isSome = true := by
    rw [hstep.2.2]; rfl
  have hfold := uhmFold_dev topic d rfl rest (uhmStep topic st0 m0) hstep.1
    (fun m' hm' => hnames m' (List.mem_cons_of_mem m0 hm')) hdev1
  simp only [List.foldl_cons]
  refine ⟨by rw [hfold.2.1, hreqs1], ?_⟩
  rcases hfold.2.2 with ⟨dev, hdv, hpres, hstored⟩
  refine ⟨dev, hdv, ?_⟩
  intro m' hm' nm' hm'name
  rcases List.mem_cons.mp hm' with h | h
  · subst h
    rw [hm0] at hm'name
    injection hm'name with hnmeq
    subst hnmeq
    apply hpres nm0
    rw [devBase, hstep.2.2]
    simp [devWrite, jsGet_jsSet_self]
  · exact hstored m' h nm' hm'name

/-- Witness for C5_dbirth_rebirth_and_applied: empty mirror, connected
client, DBIRTH for (G,N,D) with the single metric m1. -/
theorem C5_witness :
    (hostProcessMessage .dbirth
        { groupId := "G", edgeNode := "N", deviceId := some "D" }
        (some [mSample]) { groups := [], mqttConnected := true }).2
      = [rebirthRequest "G" "N", rebirthRequest "G" "N"] ∧
      ∃ dev, lookupDevice
          (hostProcessMessage .dbirth
            { groupId := "G", edgeNode := "N", deviceId := some "D" }
            (some [mSample]) { groups := [], mqttConnected := true }).1
          "G" "N" "D" = some dev ∧
        ∀ m ∈ [mSample], ∀ nm, m.name = some nm →
          (jsGet dev.metrics nm).isSome = true :=
  C5_dbirth_rebirth_and_applied { groups := [], mqttConnected := true }
    "G" "N" "D" [mSample] mSample [] rfl rfl rfl
    (by intro m hm; simp at hm; subst hm; exact ⟨"m1", rfl, by decide⟩)

/-! ## Construction (src/unnamed/part_003 createNode, setupNodeEvents;
src/stateMachines/host.ts createHost, setupHostEvents,
createHostMessageEvents)

Both constructors build the entity in the disconnected state and then
immediately call the connect transition on it (`return
connectNode(node)` / `return connectHost(host)`); the guard
(disconnected) passes, so the transition creates the MQTT client with
the configured will, registers the client event handlers, issues the
subscriptions, and wires the event-bus listeners.  The states record
itself stays disconnected until the broker connack arrives. -/

/-- Shallow embedding of `createSpbTopic` (src/mqtt.ts lines 86 to
101); an empty deviceId is falsy and appends nothing. -/
def createSpbTopic (commandType version groupId edgeNode : String)
    (deviceId : Option String := none) : String :=
  version ++ "/" ++ groupId ++ "/" ++ commandType ++ "/" ++ edgeNode ++
    (match deviceId with
     | some dev => if dev != "" then "/" ++ dev else ""
     | none => "")

/-- The subscription filter actually sent by `subscribe`: a truthy
sharedGroup wraps the filter in a broker-shared subscription. -/
def subscribeTopic (topic : String) (sharedGroup : Option String) : String :=
  (match sharedGroup with
   | some grp => if grp != "" then "$share/" ++ grp ++ "/" else ""
   | none => "") ++ topic

/-- The edge-node MQTT client as constructed by `createMqttClient`
and then decorated by `setupNodeEvents`. -/
structure EdgeClient where
  willTopic : String
  willBdseq : Nat
  willRetain : Bool
  subscriptions : List String
  handlers : List String
deriving DecidableEq, Repr

/-- The host MQTT client as constructed by `createHostMqttClient` and
then decorated by `setupHostEvents`. -/
structure HostClient where
  willTopic : String
  willPayload : String
  willRetain : Bool
  subscriptions : List String
  handlers : List String
deriving DecidableEq, Repr

/-- Construction-relevant configuration of an edge node. -/
structure EdgeConfig where
  version : String
  groupId : String
  id : String
deriving DecidableEq, Repr

/-- Construction-relevant configuration of a host. -/
structure HostConfig where
  version : String
  primaryHostId : String
  sharedSubscriptionGroup : Option String := none
deriving DecidableEq, Repr

/-- The constructed node: states record, counters, client, event-bus
listeners installed by setupNodeEvents. -/
structure CreatedNode where
  states : NodeStates
  bdseq : Nat
  seq : Nat
  mqtt : Option EdgeClient
  eventListeners : List String
deriving DecidableEq, Repr

/-- The node object literal built by `createNode` before it calls
connectNode: disconnected, counters 0, mqtt null, no listeners. -/
def initialNode (_cfg : EdgeConfig) : CreatedNode :=
  { states := nodeStatesDisconnected, bdseq := 0, seq := 0, mqtt := none,
    eventListeners := [] }

/-- Shallow embedding of `createMqttClient` (src/mqtt.ts lines 520 to
551): the will is the NDEATH topic with `getDeathPayload(bdSeq)`,
qos 0, retain false; no subscriptions or handlers yet. -/
def createMqttClient (cfg : EdgeConfig) (bdSeq : Nat) : EdgeClient :=
  { willTopic := cfg.version ++ "/" ++ cfg.groupId ++ "/NDEATH/" ++ cfg.id,
    willBdseq := bdSeq, willRetain := false,
    subscriptions := [], handlers := [] }

/-- Shallow embedding of `setupNodeEvents` (src/unnamed/part_003,
lines 140 to 184): when the client exists, register the connect,
message, disconnect, close and error handlers and subscribe to the
DCMD and NCMD topics of this node and to STATE/#; in any case register
the ncmd listener on the node's event bus. -/
def setupNodeEvents (cfg : EdgeConfig) (node : CreatedNode) : CreatedNode :=
  let node' :=
    match node.mqtt with
    | some cl =>
      let cl' : EdgeClient :=
        { cl with
          handlers := cl.handlers ++
            ["connect", "message", "disconnect", "close", "error"],
          subscriptions := cl.subscriptions ++
            [createSpbTopic "DCMD" cfg.version cfg.groupId cfg.id,
              createSpbTopic "NCMD" cfg.version cfg.groupId cfg.id,
              "STATE/#"] }
      { node with mqtt := some cl' }
    | none => node
  { node' with eventListeners := node'.eventListeners ++ ["ncmd"] }

/-- Shallow embedding of `nodeTransitions.connect`: create the client
with the current bdseq, then set up events. -/
def nodeTransitionConnect (cfg : EdgeConfig) (node : CreatedNode) :
    CreatedNode :=
  setupNodeEvents cfg { node with mqtt := some (createMqttClient cfg node.bdseq) }

/-- Shallow embedding of `connectNode`: guarded by
`states.disconnected`. -/
def connectNode (cfg : EdgeConfig) (node : CreatedNode) : CreatedNode :=
  if node.states.disconnected then nodeTransitionConnect cfg node else node

/-- Shallow embedding of `createNode` (src/unnamed/part_003, lines 614
to 632): build the disconnected node and immediately connect it. -/
def createNode (cfg : EdgeConfig) : CreatedNode :=
  connectNode cfg (initialNode cfg)

/-- The constructed host. -/
structure CreatedHost where
  connected : Bool
  disconnected : Bool
  mqtt : Option HostClient
  eventListeners : List String
deriving DecidableEq, Repr

/-- The host object literal built by `createHost` before it calls
connectHost. -/
def initialHost (_cfg : HostConfig) : CreatedHost :=
  { connected := false, disconnected := true, mqtt := none,
    eventListeners := [] }

/-- Shallow embedding of `createHostMqttClient` (src/mqtt.ts lines 490
to 512): will topic STATE/primaryHostId, payload the literal OFFLINE,
retained. -/
def createHostMqttClient (cfg : HostConfig) : HostClient :=
  { willTopic := "STATE/" ++ cfg.primaryHostId, willPayload := "OFFLINE",
    willRetain := true, subscriptions := [], handlers := [] }

/-- Shallow embedding of `setupHostEvents` (host.ts lines 305 to 343):
when the client exists, register the five handlers, subscribe to
STATE/# and the eight per-command namespace filters (NDATA and DDATA
through the shared subscription group when configured), and wire the
four data-event listeners (createHostMessageEvents). -/
def setupHostEvents (cfg : HostConfig) (host : CreatedHost) : CreatedHost :=
  match host.mqtt with
  | some cl =>
    let cl' :=
      { cl with
        handlers := cl.handlers ++
          ["connect", "message", "disconnect", "close", "error"],
        subscriptions := cl.subscriptions ++
          ["STATE/#",
            cfg.version ++ "/+/NBIRTH/+",
            cfg.version ++ "/+/NCMD/+",
            subscribeTopic (cfg.version ++ "/+/NDATA/#")
              cfg.sharedSubscriptionGroup,
            cfg.version ++ "/+/NDEATH/+",
            cfg.version ++ "/+/DBIRTH/+",
            cfg.version ++ "/+/DCMD/+",
            subscribeTopic (cfg.version ++ "/+/DDATA/#")
              cfg.sharedSubscriptionGroup,
            cfg.version ++ "/+/DDEATH/+"] }
    let host' := { host with mqtt := some cl' }
    { host' with eventListeners := host'.eventListeners ++
        ["nbirth", "dbirth", "ndata", "ddata"] }
  | none => host

/-- Shallow embedding of `hostTransitions.connect` and `connectHost`
and `createHost` (host.ts lines 354 to 507). -/
def createHost (cfg : HostConfig) : CreatedHost :=
  let host := initialHost cfg
  if host.disconnected then
    setupHostEvents cfg { host with mqtt := some (createHostMqttClient cfg) }
  else host

/-- The fully decorated client createNode is expected to return. -/
def expectedEdgeClient (cfg : EdgeConfig) : EdgeClient :=
  { willTopic := cfg.version ++ "/" ++ cfg.groupId ++ "/NDEATH/" ++ cfg.id,
    willBdseq := 0, willRetain := false,
    subscriptions := [createSpbTopic "DCMD" cfg.version cfg.groupId cfg.id,
      createSpbTopic "NCMD" cfg.version cfg.groupId cfg.id, "STATE/#"],
    handlers := ["connect", "message", "disconnect", "close", "error"] }

/-- The fully decorated client createHost is expected to return. -/
def expectedHostClient (cfg : HostConfig) : HostClient :=
  { willTopic := "STATE/" ++ cfg.primaryHostId, willPayload := "OFFLINE",
    willRetain := true,
    subscriptions := ["STATE/#",
      cfg.version ++ "/+/NBIRTH/+",
      cfg.version ++ "/+/NCMD/+",
      subscribeTopic (cfg.version ++ "/+/NDATA/#") cfg.sharedSubscriptionGroup,
      cfg.version ++ "/+/NDEATH/+",
      cfg.version ++ "/+/DBIRTH/+",
      cfg.version ++ "/+/DCMD/+",
      subscribeTopic (cfg.version ++ "/+/DDATA/#") cfg.sharedSubscriptionGroup,
      cfg.version ++ "/+/DDEATH/+"],
    handlers := ["connect", "message", "disconnect", "close", "error"] }

/-- C10.  For every configuration, createNode and createHost trigger
the connect transition during construction: the returned instance
already carries an MQTT client configured with the death will (the
NDEATH payload with the node's bdSeq, or the retained OFFLINE STATE
will), with the event handlers registered and the subscriptions
issued, and with the event-bus listeners wired, instead of being
returned idle awaiting an explicit connect() call.  (The states record
itself remains disconnected until the broker connack.) -/
theorem C10_construction_connects (cfg : EdgeConfig) (hcfg : HostConfig) :
    (createNode cfg).mqtt = some (expectedEdgeClient cfg) ∧
      (createNode cfg).eventListeners = ["ncmd"] ∧
      (createNode cfg).states = nodeStatesDisconnected ∧
      (createHost hcfg).mqtt = some (expectedHostClient hcfg) ∧
      (createHost hcfg).eventListeners
        = ["nbirth", "dbirth", "ndata", "ddata"] :=
  ⟨rfl, rfl, rfl, rfl, rfl⟩

end Synapse
